import Mathlib

/-!
Shallow embedding of `src/util.rs` of unqlite.rs: the randomness facade
(`Util::random_string`, `Util::random_num`), the mapped-resource manager
(`load_mmaped_file`, `Mmap`, `impl Drop for Mmap`), and the std-library
semantics they rely on (`Vec::with_capacity`, `CString::new`,
`CString::into_raw`). The engine (`unqlite_util_*` FFI calls) is modelled
as an oracle structure; memory is modelled flat (a write of `n` bytes at
the handed-out address is read back verbatim by `Vec::from_raw_parts`),
with the actual allocation size tracked explicitly so that claims about
buffer capacity can be settled against the real allocation.
-/

namespace UnqliteUtil

/-- Modelled from the spec: the error taxonomy of the crate's `error.rs`
(not under `src/`): `EngineError{code}` for an engine status reported as
failure, `PathEncodingError` for a caller path that cannot be passed to
the engine (the crate's `From<NulError> for Error`). -/
inductive Error
  | engineError (code : Int)
  | pathEncodingError
  deriving DecidableEq, Repr

/-- A Rust panic payload: `Result::unwrap` on an `Err` panics carrying the
error's debug representation; `Option::expect` / `Result::expect` panics
with the given message. -/
inductive PanicPayload
  | fromUnwrapErr (e : Error)
  | fromExpect (msg : String)
  deriving DecidableEq, Repr

/-- Outcome of running one of the embedded operations: a normal return,
a typed `Err` returned to the caller, or a panic (unwinding). -/
inductive RunResult (α : Type)
  | ok (a : α)
  | err (e : Error)
  | panicked (p : PanicPayload)
  deriving DecidableEq, Repr

/-- `true` exactly on a typed failure (`Err`) returned to the caller. -/
def RunResult.isTypedErr {α : Type} : RunResult α → Bool
  | .err _ => true
  | _ => false

/-- `true` exactly on a normal return. -/
def RunResult.isOkResult {α : Type} : RunResult α → Bool
  | .ok _ => true
  | _ => false

/-- One call across the native boundary into the engine. -/
inductive EngineCall
  | fillRandom (bufSize : Nat)
  | randomNumCall
  | mapFile (cpath : List Nat)
  | unmapFile (ptr : Nat) (size : Int)
  deriving DecidableEq, Repr

/-- The opaque engine behind the handle, as an oracle: for each operation,
the status it reports and the data it produces. `fillByte i` is the byte
the random-fill call writes at offset `i` of the buffer it is given;
`mapResult cpath` is the `(status, out_ptr, out_size)` triple produced by
`unqlite_util_load_mmaped_file`; `unmapStatus` the status of
`unqlite_util_release_mmaped_file`. -/
structure Engine where
  fillStatus : Nat → Int
  fillByte : Nat → Nat
  randomNum : Fin (2 ^ 32)
  mapResult : List Nat → Int × Nat × Int
  unmapStatus : Nat → Int → Int

/-- Modelled from the spec: the Status Adapter, the crate's
`Wrap::wrap(status) -> Result<()>` in `error.rs` (not under `src/`):
status `0` (`UNQLITE_OK`) is success, any other status becomes
`EngineError` carrying that code. -/
def wrap (status : Int) : Except Error Unit :=
  if status = 0 then .ok () else .error (.engineError status)

/-- A Rust `Vec<u8>`: its initialized contents and its allocated capacity. -/
structure RustVec where
  data : List Nat
  cap : Nat
  deriving DecidableEq, Repr

/-- `Vec::with_capacity(n)`: length 0, capacity `n`. -/
def vecWithCapacity (n : Nat) : RustVec := ⟨[], n⟩

/-- A heap allocation handed across the boundary by `CString::into_raw`:
its byte contents and its exact allocation size in bytes. -/
structure CStrAlloc where
  bytes : List Nat
  allocSize : Nat
  deriving DecidableEq, Repr

/-- `CString::new(v)` for a `Vec<u8>`: fails on an interior nul byte;
otherwise appends the nul terminator and converts to a boxed slice, which
shrinks the allocation to exactly `v.len() + 1` bytes (Rust std:
`from_vec_unchecked` does `reserve_exact(1); push(0); into_boxed_slice()`,
and `into_boxed_slice` shrinks capacity to the length). -/
def cstringNew (v : RustVec) : Option CStrAlloc :=
  if (0 : Nat) ∈ v.data then none
  else some ⟨v.data ++ [0], v.data.length + 1⟩

/-- `CString::new(bs)` applied to the bytes of a `&str` (as in
`load_mmaped_file`): same interior-nul check and nul-termination. -/
def cstringNewBytes (bs : List Nat) : Option (List Nat) :=
  if (0 : Nat) ∈ bs then none
  else some (bs ++ [0])

/-- The allocation `random_string` hands to the engine:
`CString::new(Vec::with_capacity(buf_size)).unwrap().into_raw()`.
The `none` branch is unreachable (the vector is empty). -/
def randomStringBuf (bufSize : Nat) : CStrAlloc :=
  match cstringNew (vecWithCapacity bufSize) with
  | some c => c
  | none => ⟨[], 0⟩

/-- `Util::random_string(&self, buf_size)` from `src/util.rs`: build the
buffer, call `unqlite_util_random_string(handle, z_buf, buf_size)`, then
`.wrap().unwrap()` — a failing status panics via `unwrap` — and on success
return `Vec::from_raw_parts(z_buf, buf_size, buf_size)`, i.e. (flat memory)
the `buf_size` bytes the engine wrote at offsets `0..buf_size`. -/
def random_string (e : Engine) (bufSize : Nat) : RunResult (List Nat) :=
  match cstringNew (vecWithCapacity bufSize) with
  | none => .panicked (.fromUnwrapErr .pathEncodingError)
  | some _zbuf =>
    match wrap (e.fillStatus bufSize) with
    | .error er => .panicked (.fromUnwrapErr er)
    | .ok _ => .ok ((List.range bufSize).map e.fillByte)

/-- `Util::random_num(&self)` from `src/util.rs`: a direct pass-through of
`unqlite_util_random_num(handle)`. -/
def random_num (e : Engine) : Nat := e.randomNum.val

/-- A byte that is an ASCII English letter (`A`–`Z` or `a`–`z`). -/
def isAsciiLetter (b : Nat) : Prop :=
  (65 ≤ b ∧ b ≤ 90) ∨ (97 ≤ b ∧ b ≤ 122)

instance (b : Nat) : Decidable (isAsciiLetter b) := by
  unfold isAsciiLetter; infer_instance

/-- UTF-8 validity checker (the check behind Rust's `Path::to_str`),
as a byte-at-a-time automaton. `need` is the number of continuation bytes
still required; `lo`/`hi` bound the next byte when `need > 0` (tightened
ranges after `E0`, `ED`, `F0`, `F4` exclude overlong encodings and
surrogates, as Rust's validator does). -/
def utf8ValidAux : Nat → Nat → Nat → List Nat → Bool
  | 0, _, _, [] => true
  | 0, _, _, b :: rest =>
    if b ≤ 0x7F then utf8ValidAux 0 0 0 rest
    else if 0xC2 ≤ b && b ≤ 0xDF then utf8ValidAux 1 0x80 0xBF rest
    else if b = 0xE0 then utf8ValidAux 2 0xA0 0xBF rest
    else if 0xE1 ≤ b && b ≤ 0xEC then utf8ValidAux 2 0x80 0xBF rest
    else if b = 0xED then utf8ValidAux 2 0x80 0x9F rest
    else if 0xEE ≤ b && b ≤ 0xEF then utf8ValidAux 2 0x80 0xBF rest
    else if b = 0xF0 then utf8ValidAux 3 0x90 0xBF rest
    else if 0xF1 ≤ b && b ≤ 0xF3 then utf8ValidAux 3 0x80 0xBF rest
    else if b = 0xF4 then utf8ValidAux 3 0x80 0x8F rest
    else false
  | _ + 1, _, _, [] => false
  | n + 1, lo, hi, b :: rest =>
    if lo ≤ b && b ≤ hi then utf8ValidAux n 0x80 0xBF rest else false

/-- A byte sequence is valid UTF-8 (so `Path::to_str` succeeds on it). -/
def utf8Valid (bs : List Nat) : Bool := utf8ValidAux 0 0 0 bs

/-- The `Mmap` struct of `src/util.rs`: the engine-produced pointer and
signed 64-bit size of the mapped region. -/
structure Mmap where
  ptr : Nat
  size : Int
  deriving DecidableEq, Repr

/-- `load_mmaped_file(path)` from `src/util.rs`, with the trace of engine
calls it makes. A path is a byte sequence (unix `OsStr`).
`path.to_str().expect("cannot convert the path to str")` panics on invalid
UTF-8; `CString::new(..)?` returns the typed `PathEncodingError` on an
interior nul; otherwise `unqlite_util_load_mmaped_file` is called and its
status goes through `wrap`, a success being mapped onto an `Mmap`. -/
def load_mmaped_file (e : Engine) (path : List Nat) :
    RunResult Mmap × List EngineCall :=
  if utf8Valid path then
    match cstringNewBytes path with
    | none => (.err .pathEncodingError, [])
    | some cpath =>
      let r := e.mapResult cpath
      match wrap r.1 with
      | .ok _ => (.ok ⟨r.2.1, r.2.2⟩, [.mapFile cpath])
      | .error er => (.err er, [.mapFile cpath])
  else (.panicked (.fromExpect "cannot convert the path to str"), [])

/-- Lifecycle state of a mapped resource: `Active` holds the live `Mmap`;
`Released` is the state after its `Drop` ran. -/
inductive MmapState
  | active (m : Mmap)
  | released
  deriving DecidableEq, Repr

/-- `impl Drop for Mmap` from `src/util.rs`, as a transition on
`MmapState`: on an `Active` resource, `drop` runs
`let _ = wrap!(util_release_mmaped_file, self.ptr, self.size)` — one
engine unmap call with the stored pointer and size, its adapted status
bound and discarded (never propagated) — and the value ceases to exist
(`Released`). Rust runs `Drop::drop` at most once per value, so on a
`Released` resource no call occurs. -/
def dropMmap (e : Engine) : MmapState → MmapState × List EngineCall
  | .active m =>
    let _discarded := wrap (e.unmapStatus m.ptr m.size)
    (.released, [.unmapFile m.ptr m.size])
  | .released => (.released, [])

/-- Exit paths of the scope owning an `Mmap`. -/
inductive ExitPath
  | normalReturn
  | earlyReturn
  | unwindPanic
  deriving DecidableEq, Repr

/-- Number of engine unmap calls for the resource `m` in a trace. -/
def countRelease (m : Mmap) : List EngineCall → Nat
  | [] => 0
  | .unmapFile p s :: rest =>
    (if p = m.ptr ∧ s = m.size then 1 else 0) + countRelease m rest
  | _ :: rest => countRelease m rest

/-- Modelled from the spec: Rust's ownership guarantee for the scope that
owns an `Active` `Mmap` (the caller of `load_mmaped_file`; not itself code
under `src/`): whichever way the scope exits — running to completion
(`body1 ++ body2`), returning early, or unwinding on a panic (both cut the
trace at `body1`) — the language appends the resource's `Drop` at the exit
point, exactly once, and the value is gone afterwards. -/
def scopeRun (e : Engine) (m : Mmap) (ex : ExitPath)
    (body1 body2 : List EngineCall) : List EngineCall :=
  match ex with
  | .normalReturn => body1 ++ body2 ++ (dropMmap e (.active m)).2
  | .earlyReturn => body1 ++ (dropMmap e (.active m)).2
  | .unwindPanic => body1 ++ (dropMmap e (.active m)).2

/-- A concrete engine whose random-fill call always fails with status
`-1` (`UNQLITE_NOMEM`-style failure). -/
def engFillFail : Engine where
  fillStatus := fun _ => -1
  fillByte := fun _ => 65
  randomNum := 0
  mapResult := fun _ => (0, 4096, 13)
  unmapStatus := fun _ _ => 0

/-- A concrete engine whose calls all succeed; `fillByte` writes `a`,
mapping yields address `4096` and size `13`. -/
def engOk : Engine where
  fillStatus := fun _ => 0
  fillByte := fun _ => 97
  randomNum := ⟨7, by norm_num⟩
  mapResult := fun _ => (0, 4096, 13)
  unmapStatus := fun _ _ => 0

/-- A concrete engine whose map call fails with status `-6`
(`UNQLITE_IOERR`-style failure) and whose unmap call fails with `-9`. -/
def engMapFail : Engine where
  fillStatus := fun _ => 0
  fillByte := fun _ => 97
  randomNum := 0
  mapResult := fun _ => (-6, 0, 0)
  unmapStatus := fun _ _ => -9

/-- The vector `random_string` builds is empty, so `CString::new` on it
always succeeds, yielding the one-byte allocation `[0]`. -/
lemma cstringNew_empty (n : Nat) :
    cstringNew (vecWithCapacity n) = some ⟨[0], 1⟩ := rfl

/-- `countRelease` distributes over trace concatenation. -/
lemma countRelease_append (m : Mmap) (a b : List EngineCall) :
    countRelease m (a ++ b) = countRelease m a + countRelease m b := by
  induction a with
  | nil => simp [countRelease]
  | cons c rest ih => cases c <;> simp [countRelease, ih, Nat.add_assoc]

/-- C10: inside `random_string`, the `unwrap` on `CString::new` can never
panic: the vector passed to `CString::new` is `Vec::with_capacity(buf_size)`,
which is always empty, so it contains no interior nul byte and
`CString::new` succeeds for every `buf_size`. -/
theorem C10_cstring_unwrap_unreachable (n : Nat) :
    (vecWithCapacity n).data = [] ∧
    cstringNew (vecWithCapacity n) = some ⟨[0], 1⟩ ∧
    (cstringNew (vecWithCapacity n)).isSome = true :=
  ⟨rfl, rfl, rfl⟩

/-- C2 (code bug, evaluated at the failing input `buf_size = 32`, the
repository's own test input): the allocation `random_string` hands to the
engine's random-fill call has size exactly 1 byte (the nul terminator left
by `CString::new` after it shrinks the capacity-32 vector), not the
requested 32 bytes; it is not writable for the full requested length. -/
theorem C2_buffer_capacity_bug :
    randomStringBuf 32 = ⟨[0], 1⟩ ∧
    (randomStringBuf 32).allocSize = 1 ∧
    (randomStringBuf 32).allocSize ≠ 32 := by
  refine ⟨rfl, rfl, by decide⟩

/-- C1 (counterexample): with an engine whose random-fill call reports
failure status `-1`, `random_string` does not return a typed `EngineError`
failure result to the caller: it panics via `unwrap` on the adapted
status. -/
theorem C1_counterexample :
    random_string engFillFail 5 =
      .panicked (.fromUnwrapErr (.engineError (-1))) ∧
    (random_string engFillFail 5).isTypedErr = false := by
  exact ⟨rfl, rfl⟩

/-- C1 (amended): for every engine and length, when the engine's
random-fill call reports a non-zero status, `random_string` panics via
`unwrap` carrying the adapted `EngineError` status; no buffer (and no
value at all) is exposed to the caller. -/
theorem C1_engine_failure_panics (e : Engine) (n : Nat)
    (h : e.fillStatus n ≠ 0) :
    random_string e n =
      .panicked (.fromUnwrapErr (.engineError (e.fillStatus n))) ∧
    (random_string e n).isOkResult = false ∧
    (random_string e n).isTypedErr = false := by
  have hr : random_string e n =
      .panicked (.fromUnwrapErr (.engineError (e.fillStatus n))) := by
    unfold random_string
    rw [cstringNew_empty]
    simp [wrap, h]
  exact ⟨hr, by rw [hr]; rfl, by rw [hr]; rfl⟩

/-- C1 (witness for the amended theorem): a concrete failing engine at
length 7. -/
theorem C1_engine_failure_panics_witness :
    random_string engFillFail 7 =
      .panicked (.fromUnwrapErr (.engineError (engFillFail.fillStatus 7))) ∧
    (random_string engFillFail 7).isOkResult = false ∧
    (random_string engFillFail 7).isTypedErr = false :=
  C1_engine_failure_panics engFillFail 7 (by decide)

/-- C4: for every engine and every length, when the engine's random-fill
call succeeds and populates every offset below the length with an ASCII
English letter, `random_string` returns exactly that many bytes, each an
ASCII letter, exactly as populated by the engine. -/
theorem C4_random_string_length_letters (e : Engine) (n : Nat)
    (hst : e.fillStatus n = 0)
    (hfill : ∀ i, i < n → isAsciiLetter (e.fillByte i)) :
    random_string e n = .ok ((List.range n).map e.fillByte) ∧
    ((List.range n).map e.fillByte).length = n ∧
    ∀ b ∈ (List.range n).map e.fillByte, isAsciiLetter b := by
  refine ⟨?_, by simp, ?_⟩
  · unfold random_string
    rw [cstringNew_empty]
    simp [wrap, hst]
  · intro b hb
    simp only [List.mem_map, List.mem_range] at hb
    obtain ⟨i, hi, rfl⟩ := hb
    exact hfill i hi

/-- C4 (witness): the all-succeeding engine at length 32 (the repository's
own test input). -/
theorem C4_random_string_witness :
    random_string engOk 32 = .ok ((List.range 32).map engOk.fillByte) ∧
    ((List.range 32).map engOk.fillByte).length = 32 ∧
    ∀ b ∈ (List.range 32).map engOk.fillByte, isAsciiLetter b :=
  C4_random_string_length_letters engOk 32 rfl
    (fun _ _ => by simp [engOk, isAsciiLetter])

/-- C9: `random_num` cannot fail (its type carries no error channel) and
returns the engine's single-value random generator result as-is: the
returned value equals exactly the value produced by the engine call and
is representable as an unsigned 32-bit value. -/
theorem C9_random_num_passthrough (e : Engine) :
    random_num e = e.randomNum.val ∧ random_num e < 2 ^ 32 :=
  ⟨rfl, e.randomNum.isLt⟩

/-- C5 (counterexample): the path `[0xFF, 0x00]` contains an embedded nul
byte, yet `load_mmaped_file` does not reject it with `PathEncodingError`:
the path is not valid UTF-8, so `to_str().expect(..)` panics first. -/
theorem C5_counterexample :
    (0 : Nat) ∈ [255, 0] ∧
    load_mmaped_file engOk [255, 0] =
      (.panicked (.fromExpect "cannot convert the path to str"), []) ∧
    (load_mmaped_file engOk [255, 0]).1 ≠ .err .pathEncodingError := by
  refine ⟨by decide, rfl, by decide⟩

/-- C5 (amended): for every UTF-8-valid path containing an embedded nul
byte, `load_mmaped_file` rejects the path with `PathEncodingError` and
returns with an empty engine-call trace, i.e. before any engine call is
attempted (a non-UTF-8 path panics on `to_str` instead). -/
theorem C5_nul_rejected_before_engine (e : Engine) (path : List Nat)
    (hutf : utf8Valid path = true) (hnul : (0 : Nat) ∈ path) :
    load_mmaped_file e path = (.err .pathEncodingError, []) := by
  simp [load_mmaped_file, hutf, cstringNewBytes, hnul]

/-- C5 (witness for the amended theorem): the path `"h\x00"`. -/
theorem C5_nul_rejected_witness :
    load_mmaped_file engOk [104, 0] = (.err .pathEncodingError, []) :=
  C5_nul_rejected_before_engine engOk [104, 0] (by decide) (by decide)

/-- C6 (counterexample): the path `[0xFF]` is not valid UTF-8;
`load_mmaped_file` does not fail with a typed `PathEncodingError`: it
panics via `expect` on `to_str`. -/
theorem C6_counterexample :
    load_mmaped_file engOk [255] =
      (.panicked (.fromExpect "cannot convert the path to str"), []) ∧
    ((load_mmaped_file engOk [255]).1).isTypedErr = false := by
  exact ⟨rfl, rfl⟩

/-- C6 (amended): for every path that is not valid UTF-8,
`load_mmaped_file` panics via `expect("cannot convert the path to str")`
— a crash, not a typed failure — before any engine call. -/
theorem C6_non_utf8_panics (e : Engine) (path : List Nat)
    (h : utf8Valid path = false) :
    load_mmaped_file e path =
      (.panicked (.fromExpect "cannot convert the path to str"), []) := by
  simp [load_mmaped_file, h]

/-- C6 (witness for the amended theorem): a lone lead byte `0xC8` with no
continuation byte. -/
theorem C6_non_utf8_panics_witness :
    load_mmaped_file engOk [200] =
      (.panicked (.fromExpect "cannot convert the path to str"), []) :=
  C6_non_utf8_panics engOk [200] (by decide)

/-- C7: for every engine and every encodable path, when the engine's
map-file call reports a non-zero status, `load_mmaped_file` fails with an
`EngineError` carrying the adapted status, no `Mmap` is constructed or
returned, and the trace holds only the map call — no unmap, so nothing
needs releasing on that failure path. -/
theorem C7_map_failure_no_resource (e : Engine) (path : List Nat)
    (hutf : utf8Valid path = true) (hnul : (0 : Nat) ∉ path)
    (hst : (e.mapResult (path ++ [0])).1 ≠ 0) :
    load_mmaped_file e path =
      (.err (.engineError (e.mapResult (path ++ [0])).1),
       [.mapFile (path ++ [0])]) ∧
    ((load_mmaped_file e path).1).isOkResult = false := by
  have hr : load_mmaped_file e path =
      (.err (.engineError (e.mapResult (path ++ [0])).1),
       [.mapFile (path ++ [0])]) := by
    simp [load_mmaped_file, hutf, cstringNewBytes, hnul, wrap, hst]
  exact ⟨hr, by rw [hr]; rfl⟩

/-- C7 (witness): the failing-map engine on the path `"hi"`. -/
theorem C7_map_failure_witness :
    load_mmaped_file engMapFail [104, 105] =
      (.err (.engineError (engMapFail.mapResult ([104, 105] ++ [0])).1),
       [.mapFile ([104, 105] ++ [0])]) ∧
    ((load_mmaped_file engMapFail [104, 105]).1).isOkResult = false :=
  C7_map_failure_no_resource engMapFail [104, 105]
    (by decide) (by decide) (by decide)

/-- C8: for every resource whose unmap call fails, the drop of an `Active`
`Mmap` delegates to the engine's unmap call with exactly the stored
pointer and size; the failure is captured by the Status Adapter as the
adapted `EngineError` but is discarded, never propagated (the transition's
result carries no error channel), the resource still transitions to
`Released`, and on a `Released` resource no further release is
attempted. -/
theorem C8_drop_discards_unmap_failure (e : Engine) (m : Mmap)
    (hfail : e.unmapStatus m.ptr m.size ≠ 0) :
    wrap (e.unmapStatus m.ptr m.size) =
      .error (.engineError (e.unmapStatus m.ptr m.size)) ∧
    dropMmap e (.active m) = (.released, [.unmapFile m.ptr m.size]) ∧
    dropMmap e .released = (.released, []) := by
  refine ⟨by simp [wrap, hfail], rfl, rfl⟩

/-- C8 (witness): an engine whose unmap call fails with status `-9`, on
the resource at address 4096, size 13. -/
theorem C8_drop_discards_witness :
    wrap (engMapFail.unmapStatus 4096 13) =
      .error (.engineError (engMapFail.unmapStatus 4096 13)) ∧
    dropMmap engMapFail (.active ⟨4096, 13⟩) =
      (.released, [.unmapFile 4096 13]) ∧
    dropMmap engMapFail .released = (.released, []) :=
  C8_drop_discards_unmap_failure engMapFail ⟨4096, 13⟩ (by decide)

/-- C3: for every engine, resource and exit path of the owning scope
(normal completion, early return, error unwinding), provided the scope's
own body performs no release of the resource, the trace of the scope
contains exactly one engine release of that resource — the
`Active -> Released` transition happens exactly once, never zero times
and never twice — and dropping an already-`Released` resource is a no-op
that performs no engine call. -/
theorem C3_release_exactly_once (e : Engine) (m : Mmap) (ex : ExitPath)
    (b1 b2 : List EngineCall)
    (h1 : countRelease m b1 = 0) (h2 : countRelease m b2 = 0) :
    countRelease m (scopeRun e m ex b1 b2) = 1 ∧
    dropMmap e .released = (.released, []) := by
  refine ⟨?_, rfl⟩
  cases ex <;>
    simp [scopeRun, countRelease_append, h1, h2, dropMmap, countRelease]

/-- C3 (witness): an early-return exit of a scope whose body made one map
call and no release. -/
theorem C3_release_exactly_once_witness :
    countRelease ⟨4096, 13⟩
      (scopeRun engOk ⟨4096, 13⟩ .earlyReturn [.mapFile [104, 105]] []) = 1 ∧
    dropMmap engOk .released = (.released, []) :=
  C3_release_exactly_once engOk ⟨4096, 13⟩ .earlyReturn
    [.mapFile [104, 105]] [] (by decide) (by decide)

end UnqliteUtil
